import Mathlib

/-!
Verification of the Project / ProjectGroup Terraform provider resources
(jfrog/terraform-provider-projects).  The Go sources are shallowly embedded:
Go `int` is 64-bit two's-complement, modelled as `Int` with explicit wrapping
where machine overflow matters; fallible operations return `Except`/`Option`;
the HTTP layer is modelled by passing the response of the single outbound
call as an explicit `Except` argument.
-/

namespace Projects

/-- Two's-complement wrap of an integer into the 64-bit signed range,
matching Go `int` arithmetic overflow behaviour. -/
def wrap64 (n : Int) : Int :=
  (n + 9223372036854775808) % 18446744073709551616 - 9223372036854775808

/-- Go multiplication on `int`: mathematical product wrapped to 64 bits. -/
def goMul (a b : Int) : Int := wrap64 (a * b)

/-- Decimal digit test, as `strconv` classifies characters for base 10. -/
def isDigit (c : Char) : Bool := '0' ≤ c && c ≤ '9'

/-- Value of a list of decimal digit characters, most significant first. -/
def natOfDigits (l : List Char) : Nat :=
  l.foldl (fun a c => a * 10 + (c.toNat - 48)) 0

/-- Embedding of Go `strconv.Atoi` (i.e. `ParseInt(s, 10, 0)` with 64-bit
`int`): an optional leading `+` or `-` followed by one or more decimal
digits, rejecting anything else and any value outside the signed 64-bit
range.  `none` models a non-nil error. -/
def atoi (s : String) : Option Int :=
  let signAndRest : Int × List Char :=
    match s.data with
    | '+' :: r => (1, r)
    | '-' :: r => (-1, r)
    | r => (1, r)
  let sign := signAndRest.1
  let rest := signAndRest.2
  if rest.isEmpty then none
  else if rest.all isDigit then
    let v : Int := sign * (natOfDigits rest : Int)
    if -9223372036854775808 ≤ v ∧ v < 9223372036854775808 then some v
    else none
  else none

/-- Embedding of the `DiffSuppressFunc` on `max_storage_in_gigabytes`
(src/pkg/projects/project.go lines 100-113): parse both strings with
`strconv.Atoi`, fail-closed (return `false`) on either parse error,
otherwise multiply each by 1024 three times in Go `int` arithmetic and
compare the results. -/
def diffSuppress (old new : String) : Bool :=
  match atoi old with
  | none => false
  | some oldVal =>
    match atoi new with
    | none => false
    | some newVal =>
      goMul (goMul (goMul oldVal 1024) 1024) 1024 ==
        goMul (goMul (goMul newVal 1024) 1024) 1024

/-- Character class `[a-z0-9]` of the key validation regex. -/
def lowerAlnum (c : Char) : Bool :=
  ('a' ≤ c && c ≤ 'z') || ('0' ≤ c && c ≤ '9')

/-- Embedding of the anchored regex on the `key` attribute
(src/pkg/projects/project.go line 53): the whole string is 3 to 6
characters, each in `[a-z0-9]`. -/
def validKey (s : String) : Bool :=
  (3 ≤ s.data.length && s.data.length ≤ 6) && s.data.all lowerAlnum

end Projects

namespace Projects

/-- Modelled from the spec: `GigabytlesToBytes` is referenced by
`unpackProject` but its definition is not under src/.  Per the spec,
the configured gigabyte count is converted to bytes by multiplying by
1024³, except the sentinel `-1` (unlimited) which bypasses the
conversion and maps to itself. -/
def GigabytlesToBytes (g : Int) : Int :=
  if g = -1 then -1 else g * 1073741824

/-- Modelled from the spec: `BytesToGigabytles` is referenced by
`packProject` but its definition is not under src/.  Per the spec, the
remote byte count is converted back to gigabytes (division by 1024³,
Go division truncating toward zero), except the sentinel `-1` which is
preserved unconverted. -/
def BytesToGigabytles (b : Int) : Int :=
  if b = -1 then -1 else Int.tdiv b 1073741824

/-- Embedding of the `AdminPrivileges` struct (project.go lines 18-22). -/
structure AdminPrivileges where
  ManageMembers : Bool
  ManageResources : Bool
  IndexResources : Bool
  deriving Repr, DecidableEq

/-- Embedding of the `Project` struct (project.go lines 26-34).
`StorageQuota` is a Go `int` byte count. -/
structure Project where
  Key : String
  DisplayName : String
  Description : String
  AdminPrivileges : Option AdminPrivileges
  StorageQuota : Int
  SoftLimit : Bool
  QuotaEmailNotification : Bool
  deriving Repr, DecidableEq

/-- Embedding of `Project.Id` (project.go lines 36-38). -/
def Project.Id (p : Project) : String := p.Key

/-- The projects endpoint constant (project.go line 40). -/
def projectsUrl : String := "/access/api/v1/projects/"

/-- The declarative state of a `project` resource, with one field per
schema attribute.  `admin_privileges` is `none` when the set is absent
(`GetOkExists` false) and `some l` with the set elements `l` otherwise. -/
structure ProjectConfig where
  key : String
  display_name : String
  description : String
  admin_privileges : Option (List AdminPrivileges)
  max_storage_in_gigabytes : Int
  block_deployments_on_limit : Bool
  email_notification : Bool
  deriving Repr, DecidableEq

/-- Result triple of `unpackProject` — Go `(interface{}, string, error)`:
the unpacked project (`none` embeds Go `nil`), the identifier, and the
error (`none` embeds a nil error). -/
structure UnpackResult where
  project : Option Project
  id : String
  err : Option String
  deriving Repr, DecidableEq

/-- Embedding of `unpackProject` (project.go lines 128-158): builds a
`Project` from the state, converting the configured gigabytes to bytes;
when `admin_privileges` exists but is empty it returns `(nil, "", nil)`,
otherwise the first element of the set fills the privileges pointer. -/
def unpackProject (d : ProjectConfig) : UnpackResult :=
  let project : Project :=
    { Key := d.key
      DisplayName := d.display_name
      Description := d.description
      AdminPrivileges := none
      StorageQuota := GigabytlesToBytes d.max_storage_in_gigabytes
      SoftLimit := d.block_deployments_on_limit
      QuotaEmailNotification := d.email_notification }
  match d.admin_privileges with
  | some privileges =>
    match privileges with
    | [] => { project := none, id := "", err := none }
    | first :: _ =>
      let project := { project with AdminPrivileges := some first }
      { project := some project, id := project.Id, err := none }
  | none => { project := some project, id := project.Id, err := none }

/-- Embedding of `packProject` (project.go lines 160-181): writes each
`Project` field back into the state, converting the byte quota back to
gigabytes; `admin_privileges` is written as a one-element set only when
the pointer is non-nil. -/
def packProject (project : Project) : ProjectConfig :=
  { key := project.Key
    display_name := project.DisplayName
    description := project.Description
    max_storage_in_gigabytes := BytesToGigabytles project.StorageQuota
    block_deployments_on_limit := project.SoftLimit
    email_notification := project.QuotaEmailNotification
    admin_privileges := project.AdminPrivileges.map (fun a => [a]) }

/-- Observable outcome of a successful `createProject` run: the POST
target and body, the identifier stored by `SetId`, and the path of the
chained `readProject` GET. -/
structure CreateOutcome where
  postPath : String
  postBody : Option Project
  id : String
  readPath : String
  deriving Repr, DecidableEq

/-- Embedding of `createProject` (project.go lines 194-207): unpack the
state (an unpack error aborts), POST the unpacked body to the projects
endpoint (`postResp` is the transport outcome of that call; a transport
error aborts), store the unpacked identifier, then chain into
`readProject` which GETs `projectsUrl + id`. -/
def createProject (d : ProjectConfig) (postResp : Except String Unit) :
    Except String CreateOutcome :=
  let r := unpackProject d
  match r.err with
  | some e => Except.error e
  | none =>
    match postResp with
    | Except.error e => Except.error e
    | Except.ok _ =>
      Except.ok
        { postPath := projectsUrl
          postBody := r.project
          id := r.id
          readPath := projectsUrl ++ r.id }

end Projects

namespace Projects

/-- Modelled from the spec: the `ProjectGroup` struct is referenced by
src/unnamed/part_000 but declared in a file not under src/.  Per the
spec, a membership associates a project key and a principal name with a
set of role-name strings. -/
structure ProjectGroup where
  ProjectKey : String
  Name : String
  Roles : List String
  deriving Repr, DecidableEq

/-- Modelled from the spec: `ProjectGroup.Id` (used by
`upsertProjectGroup` via `SetId`) is declared in a file not under src/.
Per the spec, the identity is the project key and the name joined by the
separator matched by the import parser, the colon of the
`project_key:name` import format. -/
def ProjectGroup.Id (pg : ProjectGroup) : String :=
  pg.ProjectKey ++ ":" ++ pg.Name

/-- The membership endpoint template (src/unnamed/part_000 line 15). -/
def projectGroupsUrl : String := "access/api/v1/projects/{projectKey}/groups/{name}"

/-- Embedding of `readProjectGroup` (src/unnamed/part_000 lines 40-59):
`local` is the group unpacked from state, `resp` the outcome of the GET
(deserialized remote object on success).  A transport error is
propagated; on success the remote object's `ProjectKey` is overwritten
with the locally known one, and the result is what `packProjectGroup`
receives. -/
def readProjectGroup (localGroup : ProjectGroup)
    (resp : Except String ProjectGroup) : Except String ProjectGroup :=
  match resp with
  | Except.error e => Except.error e
  | Except.ok loadedProjectGroup =>
    Except.ok { loadedProjectGroup with ProjectKey := localGroup.ProjectKey }

/-- Embedding of `upsertProjectGroup` (src/unnamed/part_000 lines
61-79) up to the chained read: `putResp` is the outcome of the PUT.  A
transport error is propagated; on success the resource identity is set
to `projectGroup.Id()`, returned here. -/
def upsertProjectGroup (projectGroup : ProjectGroup)
    (putResp : Except String Unit) : Except String String :=
  match putResp with
  | Except.error e => Except.error e
  | Except.ok _ => Except.ok projectGroup.Id

/-- Embedding of `deleteProjectGroup` (src/unnamed/part_000 lines
81-98): `id` is the current resource identity, `resp` the outcome of
the DELETE (the response body is never examined).  On a transport error
the error is returned and the identity left unchanged; on success the
identity is cleared and no error returned. -/
def deleteProjectGroup (id : String) (resp : Except String Unit) :
    String × Option String :=
  match resp with
  | Except.error e => (id, some e)
  | Except.ok _ => ("", none)

/-- Split a character list at the first colon: `none` when no colon
occurs, otherwise the characters before it and the (possibly empty)
remainder after it.  This is Go `strings.SplitN(s, ":", 2)` restricted
to the shape tested by the import function. -/
def splitFirstColon : List Char → Option (List Char × List Char)
  | [] => none
  | c :: cs =>
    if c = ':' then some ([], cs)
    else
      match splitFirstColon cs with
      | none => none
      | some (a, b) => some (c :: a, b)

/-- Embedding of `importForProjectKeyGroupName` (src/unnamed/part_000
lines 100-110): split the supplied ID on the first colon; when the
split does not yield exactly two non-empty parts, fail with the error
message naming the expected `project_key:name` format; otherwise return
the populated `(project_key, name)` pair. -/
def importForProjectKeyGroupName (id : String) :
    Except String (String × String) :=
  let failMsg := "unexpected format of ID (" ++ id ++ "), expected project_key:name"
  match splitFirstColon id.data with
  | none => Except.error failMsg
  | some (a, b) =>
    if a = [] ∨ b = [] then Except.error failMsg
    else Except.ok (String.mk a, String.mk b)

end Projects

namespace Projects

example : diffSuppress "5" "5" = true := by decide
example : diffSuppress "abc" "5" = false := by decide
example : diffSuppress "0" "17179869184" = true := by decide
example : atoi "17179869184" = some 17179869184 := by decide
example : validKey "0abc" = true := by decide
example : validKey "Abc" = false := by decide
example : GigabytlesToBytes (BytesToGigabytles 1073741824) = 1073741824 := by decide
example : GigabytlesToBytes (BytesToGigabytles (-1)) = -1 := by decide
example : importForProjectKeyGroupName "abc:devs" = Except.ok ("abc", "devs") := by rfl
example : importForProjectKeyGroupName "abcdevs" =
    Except.error "unexpected format of ID (abcdevs), expected project_key:name" := by rfl
example : importForProjectKeyGroupName ":devs" =
    Except.error "unexpected format of ID (:devs), expected project_key:name" := by rfl
example : importForProjectKeyGroupName "abc:" =
    Except.error "unexpected format of ID (abc:), expected project_key:name" := by rfl
example : importForProjectKeyGroupName "a:b:c" = Except.ok ("a", "b:c") := by rfl
example : (ProjectGroup.mk "abc" "devs" []).Id = "abc:devs" := by decide

/-! ### Helper lemmas -/

theorem splitFirstColon_eq_none {l : List Char} (h : ':' ∉ l) :
    splitFirstColon l = none := by
  induction l with
  | nil => rfl
  | cons c cs ih =>
    simp only [List.mem_cons, not_or] at h
    have hc : ¬ c = ':' := fun hc => h.1 hc.symm
    simp [splitFirstColon, hc, ih h.2]

theorem splitFirstColon_append {pk rest : List Char} (h : ':' ∉ pk) :
    splitFirstColon (pk ++ ':' :: rest) = some (pk, rest) := by
  induction pk with
  | nil => simp [splitFirstColon]
  | cons c cs ih =>
    simp only [List.mem_cons, not_or] at h
    have hc : ¬ c = ':' := fun hc => h.1 hc.symm
    simp [splitFirstColon, hc, ih h.2]

theorem data_join (pk rest : String) :
    (pk ++ ":" ++ rest).data = pk.data ++ ':' :: rest.data := by
  rw [String.data_append, String.data_append]
  simp

theorem importJoin (pk rest : String) (hpk : ':' ∉ pk.data) :
    importForProjectKeyGroupName (pk ++ ":" ++ rest) =
      if pk.data = [] ∨ rest.data = [] then
        Except.error
          ("unexpected format of ID (" ++ (pk ++ ":" ++ rest) ++ "), expected project_key:name")
      else Except.ok (pk, rest) := by
  have hsplit : splitFirstColon (pk.data ++ ':' :: rest.data) = some (pk.data, rest.data) :=
    splitFirstColon_append hpk
  by_cases h : pk.data = [] ∨ rest.data = []
  · simp [importForProjectKeyGroupName, data_join, hsplit, h]
  · simp [importForProjectKeyGroupName, data_join, hsplit, h]

theorem gb_bytes_roundtrip {b : Int}
    (h : (0 ≤ b ∧ (1073741824 : Int) ∣ b) ∨ b = -1) :
    GigabytlesToBytes (BytesToGigabytles b) = b := by
  rcases h with ⟨hb, hd⟩ | hb
  · have hbne : b ≠ -1 := by omega
    rw [BytesToGigabytles, if_neg hbne]
    have hq : 0 ≤ Int.tdiv b 1073741824 := Int.tdiv_nonneg hb (by norm_num)
    have hqne : Int.tdiv b 1073741824 ≠ -1 := by omega
    rw [GigabytlesToBytes, if_neg hqne]
    exact Int.tdiv_mul_cancel hd
  · subst hb
    simp [BytesToGigabytles, GigabytlesToBytes]

theorem lowerAlnum_iff (c : Char) :
    lowerAlnum c = true ↔ (('a' ≤ c ∧ c ≤ 'z') ∨ ('0' ≤ c ∧ c ≤ '9')) := by
  simp [lowerAlnum, Bool.or_eq_true, Bool.and_eq_true, decide_eq_true_eq]

theorem validKey_eq_false_of_bad_char {s : String} {c : Char} (hc : c ∈ s.data)
    (hbad : ¬ (('a' ≤ c ∧ c ≤ 'z') ∨ ('0' ≤ c ∧ c ≤ '9'))) :
    validKey s = false := by
  cases hv : validKey s with
  | false => rfl
  | true =>
    exfalso
    simp only [validKey, Bool.and_eq_true, List.all_eq_true] at hv
    exact hbad ((lowerAlnum_iff c).mp (hv.2 c hc))

theorem validKey_eq_false_of_length {s : String}
    (h : s.data.length < 3 ∨ 6 < s.data.length) : validKey s = false := by
  cases hv : validKey s with
  | false => rfl
  | true =>
    exfalso
    simp only [validKey, Bool.and_eq_true, decide_eq_true_eq] at hv
    omega

/-! ### Claim theorems -/

/-- C1: for every byte count that is a non-negative multiple of 1024³, and
for the sentinel -1, converting to gigabytes (`BytesToGigabytles`, as
`packProject` does) and back to bytes (`GigabytlesToBytes`, as
`unpackProject` does) yields the original value; the sentinel -1 maps to
itself in both directions and is never multiplied by the byte factor. -/
theorem c1_storage_quota_roundtrip (b : Int) (p q : Project)
    (hp : p.StorageQuota = b)
    (h : (0 ≤ b ∧ (1073741824 : Int) ∣ b) ∨ b = -1) :
    GigabytlesToBytes (BytesToGigabytles b) = b ∧
    ((unpackProject (packProject p)).project = some q → q.StorageQuota = b) ∧
    BytesToGigabytles (-1) = -1 ∧ GigabytlesToBytes (-1) = -1 := by
  subst hp
  refine ⟨gb_bytes_roundtrip h, ?_,
    by simp [BytesToGigabytles], by simp [GigabytlesToBytes]⟩
  intro hq
  have hr := gb_bytes_roundtrip h
  cases hap : p.AdminPrivileges with
  | none =>
    simp [packProject, unpackProject, hap] at hq
    rw [← hq]
    exact hr
  | some a =>
    simp [packProject, unpackProject, hap] at hq
    rw [← hq]
    exact hr

/-- C1 witness at the concrete byte count 1024³. -/
theorem c1_storage_quota_roundtrip_witness :
    GigabytlesToBytes (BytesToGigabytles 1073741824) = 1073741824 ∧
    (Project.mk "abc" "dn" "" none 1073741824 false false).StorageQuota = 1073741824 := by
  have h := c1_storage_quota_roundtrip 1073741824
    (Project.mk "abc" "dn" "" none 1073741824 false false)
    (Project.mk "abc" "dn" "" none 1073741824 false false)
    rfl (Or.inl (by decide))
  exact ⟨h.1, by rw [← h.2.1 (by rfl)]⟩

/-- C2: the diff-suppression predicate on `max_storage_in_gigabytes`
returns true on any pair of strings parsing to integers a, b with
a·1024³ = b·1024³, and false whenever either string fails to parse. -/
theorem c2_diff_suppress_spec (old new : String) :
    (∀ a b : Int, atoi old = some a → atoi new = some b →
      a * 1073741824 = b * 1073741824 → diffSuppress old new = true) ∧
    ((atoi old = none ∨ atoi new = none) → diffSuppress old new = false) := by
  constructor
  · intro a b ha hb hab
    have hed : a = b := mul_right_cancel₀ (by norm_num) hab
    subst hed
    simp [diffSuppress, ha, hb]
  · intro h
    rcases h with h | h
    · simp [diffSuppress, h]
    · cases ha : atoi old with
      | none => simp [diffSuppress, ha]
      | some a => simp [diffSuppress, ha, h]

/-- C2 witness: suppression on an equal pair, no suppression on a
malformed side. -/
theorem c2_diff_suppress_spec_witness :
    diffSuppress "7" "7" = true ∧ diffSuppress "x7" "7" = false := by
  exact ⟨(c2_diff_suppress_spec "7" "7").1 7 7 (by decide) (by decide) rfl,
    (c2_diff_suppress_spec "x7" "7").2 (Or.inl (by decide))⟩

/-- C3: when `admin_privileges` is present but empty, `unpackProject`
returns a nil project, an empty identifier and no error; when it is
present and non-empty, the unpacked project's privileges pointer holds
the first element, with the key as identifier and no error. -/
theorem c3_unpack_admin_privileges (cfg : ProjectConfig) :
    (cfg.admin_privileges = some [] →
      unpackProject cfg = { project := none, id := "", err := none }) ∧
    (∀ a rest, cfg.admin_privileges = some (a :: rest) →
      ∃ p, (unpackProject cfg).project = some p ∧
        p.AdminPrivileges = some a ∧
        (unpackProject cfg).id = cfg.key ∧
        (unpackProject cfg).err = none) := by
  constructor
  · intro h
    simp [unpackProject, h]
  · intro a rest h
    refine ⟨Project.mk cfg.key cfg.display_name cfg.description (some a)
        (GigabytlesToBytes cfg.max_storage_in_gigabytes)
        cfg.block_deployments_on_limit cfg.email_notification,
      ?_, rfl, ?_, ?_⟩ <;> simp [unpackProject, h, Project.Id]

/-- C3 witness: an explicitly-empty privileges set and a one-element set
on concrete configurations. -/
theorem c3_unpack_admin_privileges_witness :
    unpackProject (ProjectConfig.mk "abc" "dn" "" (some []) (-1) false false) =
      { project := none, id := "", err := none } ∧
    ∃ p, (unpackProject (ProjectConfig.mk "abc" "dn" ""
        (some [AdminPrivileges.mk true false true]) (-1) false false)).project = some p ∧
      p.AdminPrivileges = some (AdminPrivileges.mk true false true) ∧
      (unpackProject (ProjectConfig.mk "abc" "dn" ""
        (some [AdminPrivileges.mk true false true]) (-1) false false)).id = "abc" ∧
      (unpackProject (ProjectConfig.mk "abc" "dn" ""
        (some [AdminPrivileges.mk true false true]) (-1) false false)).err = none := by
  exact ⟨(c3_unpack_admin_privileges _).1 rfl,
    (c3_unpack_admin_privileges _).2 (AdminPrivileges.mk true false true) [] rfl⟩

/-- C4: the key validation accepts exactly the 3-to-6-character strings of
lowercase alphanumerics — digit-leading strings included — and rejects any
string with an uppercase letter, length below 3 or above 6, or a character
outside the class. -/
theorem c4_key_validation (s : String) :
    ((3 ≤ s.length ∧ s.length ≤ 6 ∧
        ∀ c ∈ s.data, ('a' ≤ c ∧ c ≤ 'z') ∨ ('0' ≤ c ∧ c ≤ '9')) →
      validKey s = true) ∧
    ((∃ c ∈ s.data, 'A' ≤ c ∧ c ≤ 'Z') → validKey s = false) ∧
    (s.length < 3 → validKey s = false) ∧
    (6 < s.length → validKey s = false) ∧
    ((∃ c ∈ s.data, ¬ (('a' ≤ c ∧ c ≤ 'z') ∨ ('0' ≤ c ∧ c ≤ '9'))) →
      validKey s = false) := by
  have hlen : s.length = s.data.length := rfl
  refine ⟨?_, ?_, ?_, ?_, ?_⟩
  · rintro ⟨h3, h6, hall⟩
    rw [hlen] at h3 h6
    simp only [validKey, Bool.and_eq_true, decide_eq_true_eq, List.all_eq_true]
    exact ⟨⟨h3, h6⟩, fun c hc => (lowerAlnum_iff c).mpr (hall c hc)⟩
  · rintro ⟨c, hc, hA, hZ⟩
    refine validKey_eq_false_of_bad_char hc ?_
    rintro (⟨h1, -⟩ | ⟨-, h2⟩)
    · exact absurd (le_trans h1 hZ) (by decide)
    · exact absurd (le_trans hA h2) (by decide)
  · intro h
    exact validKey_eq_false_of_length (Or.inl (hlen ▸ h))
  · intro h
    exact validKey_eq_false_of_length (Or.inr (hlen ▸ h))
  · rintro ⟨c, hc, hbad⟩
    exact validKey_eq_false_of_bad_char hc hbad

/-- C4 witness: a digit-leading key is accepted; uppercase, too-short,
too-long and non-alphanumeric keys are rejected. -/
theorem c4_key_validation_witness :
    validKey "9a1b" = true ∧ validKey "aBc" = false ∧ validKey "ab" = false ∧
    validKey "abcdefg" = false ∧ validKey "ab-c" = false := by
  refine ⟨(c4_key_validation "9a1b").1 (by decide),
    (c4_key_validation "aBc").2.1 (by decide),
    (c4_key_validation "ab").2.2.1 (by decide),
    (c4_key_validation "abcdefg").2.2.2.1 (by decide),
    (c4_key_validation "ab-c").2.2.2.2 (by decide)⟩

/-- C5: the membership import errors, naming the expected
`project_key:name` format, exactly when the ID has no colon, an empty
part before the first colon, or an empty remainder; otherwise it returns
the part before the first colon as `project_key` and the remainder as
`name`. -/
theorem c5_import_id_format (id pk rest : String) :
    ((':' ∉ id.data) →
      importForProjectKeyGroupName id =
        Except.error
          ("unexpected format of ID (" ++ id ++ "), expected project_key:name")) ∧
    (id = pk ++ ":" ++ rest → ':' ∉ pk.data →
      ((pk = "" ∨ rest = "") →
        importForProjectKeyGroupName id =
          Except.error
            ("unexpected format of ID (" ++ id ++ "), expected project_key:name")) ∧
      (pk ≠ "" → rest ≠ "" →
        importForProjectKeyGroupName id = Except.ok (pk, rest))) := by
  constructor
  · intro h
    simp [importForProjectKeyGroupName, splitFirstColon_eq_none h]
  · intro hid hpk
    subst hid
    constructor
    · intro hor
      have hd : pk.data = [] ∨ rest.data = [] := by
        rcases hor with h | h
        · exact Or.inl (String.ext_iff.mp h)
        · exact Or.inr (String.ext_iff.mp h)
      rw [importJoin pk rest hpk, if_pos hd]
    · intro hpk0 hrest0
      have hd : ¬ (pk.data = [] ∨ rest.data = []) := by
        rintro (h | h)
        · exact hpk0 (String.ext h)
        · exact hrest0 (String.ext h)
      rw [importJoin pk rest hpk, if_neg hd]

/-- C5 witness: a colon-free ID, an empty-remainder ID and a well-formed
ID on the import function. -/
theorem c5_import_id_format_witness :
    importForProjectKeyGroupName "abcdevs" =
      Except.error "unexpected format of ID (abcdevs), expected project_key:name" ∧
    importForProjectKeyGroupName "abc:" =
      Except.error "unexpected format of ID (abc:), expected project_key:name" ∧
    importForProjectKeyGroupName "abc:devs" = Except.ok ("abc", "devs") := by
  refine ⟨(c5_import_id_format "abcdevs" "" "").1 (by decide),
    ((c5_import_id_format "abc:" "abc" "").2 rfl (by decide)).1 (Or.inr rfl),
    ((c5_import_id_format "abc:devs" "abc" "devs").2 rfl (by decide)).2
      (by decide) (by decide)⟩

/-- C6: for non-empty, colon-free `projectKey` and `name`, importing the
identifier that a successful `upsertProjectGroup` stores reconstructs
exactly the `(project_key, name)` pair. -/
theorem c6_membership_id_roundtrip (pk name : String) (roles : List String)
    (gid : String) (hpk0 : pk ≠ "") (hname0 : name ≠ "")
    (hpk : ':' ∉ pk.data) (_hname : ':' ∉ name.data)
    (hup : upsertProjectGroup (ProjectGroup.mk pk name roles) (Except.ok ()) =
      Except.ok gid) :
    importForProjectKeyGroupName gid = Except.ok (pk, name) := by
  simp only [upsertProjectGroup, ProjectGroup.Id, Except.ok.injEq] at hup
  subst hup
  have hd : ¬ (pk.data = [] ∨ name.data = []) := by
    rintro (h | h)
    · exact hpk0 (String.ext h)
    · exact hname0 (String.ext h)
  rw [importJoin pk name hpk, if_neg hd]

/-- C6 witness at a concrete project key, group name and role list. -/
theorem c6_membership_id_roundtrip_witness :
    upsertProjectGroup (ProjectGroup.mk "abc" "devs" ["dev"]) (Except.ok ()) =
      Except.ok "abc:devs" ∧
    importForProjectKeyGroupName "abc:devs" = Except.ok ("abc", "devs") := by
  exact ⟨by rfl, c6_membership_id_roundtrip "abc" "devs" ["dev"] "abc:devs"
    (by decide) (by decide) (by decide) (by decide) (by rfl)⟩

/-- C7: whenever `readProjectGroup` succeeds, the `ProjectKey` of the
value handed to packing equals the locally configured one, regardless of
the `ProjectKey` the remote GET response carried. -/
theorem c7_read_overwrites_project_key (localGroup : ProjectGroup)
    (resp : Except String ProjectGroup) (result : ProjectGroup)
    (h : readProjectGroup localGroup resp = Except.ok result) :
    result.ProjectKey = localGroup.ProjectKey := by
  cases resp with
  | error e => simp [readProjectGroup] at h
  | ok loaded =>
    simp only [readProjectGroup, Except.ok.injEq] at h
    rw [← h]

/-- C7 witness: a remote response carrying a different project key is
overwritten with the local one. -/
theorem c7_read_overwrites_project_key_witness :
    (ProjectGroup.mk "abc" "devs" ["dev"]).ProjectKey =
      (ProjectGroup.mk "abc" "devs" []).ProjectKey := by
  exact c7_read_overwrites_project_key (ProjectGroup.mk "abc" "devs" [])
    (Except.ok (ProjectGroup.mk "other" "devs" ["dev"]))
    (ProjectGroup.mk "abc" "devs" ["dev"]) (by rfl)

/-- C8: a successful DELETE clears the resource identity and returns no
error, whatever the response body; a transport error is returned and the
identity left unchanged. -/
theorem c8_delete_clears_id (id e : String) :
    deleteProjectGroup id (Except.ok ()) = ("", none) ∧
    deleteProjectGroup id (Except.error e) = (id, some e) := by
  exact ⟨rfl, rfl⟩

/-- C9: the diff-suppression predicate is not injective on parsed values:
the strings "0" and "17179869184" parse to the distinct integers 0 and
2³⁴, yet the predicate suppresses the diff, because 2³⁴·1024³ wraps to 0
in 64-bit arithmetic. -/
theorem c9_diff_suppress_not_injective :
    atoi "0" = some 0 ∧ atoi "17179869184" = some 17179869184 ∧
    (0 : Int) ≠ 17179869184 ∧ diffSuppress "0" "17179869184" = true := by
  exact ⟨by decide, by decide, by decide, by decide⟩

/-- C10: with a present-but-empty `admin_privileges` set, `createProject`
does not stop at the empty unpack result: it POSTs a nil body to the
projects endpoint, stores the empty identifier, chains into a read of
the bare projects URL, and reports no error from the unpack step. -/
theorem c10_create_with_empty_privileges (cfg : ProjectConfig)
    (h : cfg.admin_privileges = some []) :
    createProject cfg (Except.ok ()) =
      Except.ok { postPath := projectsUrl, postBody := none, id := "",
                  readPath := projectsUrl } := by
  simp [createProject, unpackProject, h]

/-- C10 witness on a concrete configuration with an empty privileges
set. -/
theorem c10_create_with_empty_privileges_witness :
    createProject (ProjectConfig.mk "abc" "dn" "" (some []) (-1) false false)
        (Except.ok ()) =
      Except.ok { postPath := projectsUrl, postBody := none, id := "",
                  readPath := projectsUrl } := by
  exact c10_create_with_empty_privileges _ rfl

end Projects
